import Mathlib

/-!  Verification of the vector-database adapter modules of this repository:
     `phi/vectordb/lancedb/lancedb.py` (embedded columnar backend, class `LanceDb`)
     and `phi/vectordb/singlestore/s2vectordb.py` (relational backend, class
     `singlestore`).

     Shallow-embedding conventions:
     * Python strings are Lean `String`s.
     * The MD5 digest from `hashlib` is external to the repository; both adapters
       compute `md5(cleaned_content.encode()).hexdigest()`, which is modelled as an
       arbitrary digest function `h : String → String` applied to the cleaned
       content.  Determinism of the identifier is then determinism of `h` composed
       with the cleaning function, which is exactly what the source composes.
     * Embedding-vector components are modelled as `Int`: no claim under study
       depends on floating-point arithmetic, only on presence/absence and on the
       serialized form of the vector.
     * `json.dumps` from the Python standard library is modelled by concrete
       executable encoders (`jsonDumpsPairs`, `jsonDumpsList`, `jsonDumpsEmb`);
       metadata and usage mappings are modelled as association lists of strings.
     * Stateful code is modelled by explicit state passing; database side effects
       (statement executions, commits) are modelled as explicit event traces. -/

set_option autoImplicit false
set_option linter.unusedVariables false

namespace Phi

/-- The NUL character `\x00`, which the storage engines cannot persist. -/
def nulChar : Char := Char.ofNat 0

/-- The Unicode replacement character `�`. -/
def replacementChar : Char := Char.ofNat 0xFFFD

/-- Python `content.replace("\x00", "�")`, the NUL-cleaning step used at
`lancedb.py` lines 99/117 and `s2vectordb.py` lines 98/134/182.  The pattern is a
single character, so the replacement is a character map. -/
def cleanContent (s : String) : String :=
  String.mk (s.data.map (fun c => if c = nulChar then replacementChar else c))

/-- `phi.document.Document`, as used by the two adapters: optional caller-supplied
id, display name, raw content, metadata/usage mappings, optional embedding. -/
structure Document where
  id : Option String
  name : String
  content : String
  meta_data : List (String × String)
  usage : List (String × String)
  embedding : Option (List Int)
  deriving DecidableEq

/-- The Embedding Provider interface: `get_embedding(text) -> sequence<float> | absent`
plus a fixed dimensionality. -/
structure Embedder where
  get_embedding : String → Option (List Int)
  dimensions : Nat

/-- Modelled from the spec: `phi.document.Document.embed` is not under `src/` (only
its callers are).  Per the spec, the Embedding Provider contract is
`get_embedding(text) -> sequence<float> | absent`, and a Document's `embedding`
field is "absent until the Write Path embeds it"; `embed` fills the field with the
provider's result for the document's content, which may be absent. -/
def Document.embed (e : Embedder) (d : Document) : Document :=
  { d with embedding := e.get_embedding d.content }

/-- Content identifier on the columnar backend
(`lancedb.py` lines 99-100 and 117-118): the hex digest of the cleaned content. -/
def lanceContentId (h : String → String) (d : Document) : String :=
  h (cleanContent d.content)

/-- Content hash on the relational backend
(`s2vectordb.py` lines 98-99, 134-135, 182-183): the hex digest of the cleaned
content. -/
def s2ContentHash (h : String → String) (d : Document) : String :=
  h (cleanContent d.content)

/-- Python truthiness of `document.id or content_hash` (`s2vectordb.py` lines
136/184): an absent or empty id falls back to the alternative. -/
def pyOr (o : Option String) (alt : String) : String :=
  match o with
  | some s => if s.isEmpty then alt else s
  | none => alt

/-- A JSON string literal (model of `json.dumps` on a string; escaping is not
relevant to any claim). -/
def jsonStr (s : String) : String := "\"" ++ s ++ "\""

/-- Model of `json.dumps` on a string-valued mapping. -/
def jsonDumpsPairs (ps : List (String × String)) : String :=
  "\x7b" ++ String.intercalate ", " (ps.map (fun kv => jsonStr kv.1 ++ ": " ++ jsonStr kv.2)) ++ "\x7d"

/-- Model of `json.dumps` on a numeric list. -/
def jsonDumpsList (xs : List Int) : String :=
  "[" ++ String.intercalate ", " (xs.map (fun x => toString x)) ++ "]"

/-- Model of `json.dumps` on an optional numeric list: Python `json.dumps(None)`
is the four-character text `null`. -/
def jsonDumpsEmb (o : Option (List Int)) : String :=
  match o with
  | some xs => jsonDumpsList xs
  | none => "null"

/-! ## Columnar backend (`LanceDb`) write path -/

/-- One row of the LanceDb table: schema `(vector, id, payload)` from
`_init_table`, with `payload` a JSON text blob. -/
structure LanceRow where
  id : String
  vector : Option (List Int)
  payload : String
  deriving DecidableEq

/-- The payload dict built at `lancedb.py` lines 119-124:
`{"name": ..., "meta_data": ..., "content": cleaned_content, "usage": ...}`,
serialized with `json.dumps` at line 129. -/
def lancePayloadJson (d : Document) (cleaned_content : String) : String :=
  "\x7b" ++ jsonStr "name" ++ ": " ++ jsonStr d.name
    ++ ", " ++ jsonStr "meta_data" ++ ": " ++ jsonDumpsPairs d.meta_data
    ++ ", " ++ jsonStr "content" ++ ": " ++ jsonStr cleaned_content
    ++ ", " ++ jsonStr "usage" ++ ": " ++ jsonDumpsPairs d.usage ++ "\x7d"

/-- `LanceDb.insert` (`lancedb.py` lines 105-135): embed each document, clean its
content, derive the id from the cleaned content's digest, build the row, and add
all rows to the table with a single bulk `connection.add(data)`.  The `filters`
argument is accepted and never used, as in the source. -/
def LanceDb.insert (h : String → String) (e : Embedder) (documents : List Document)
    (filters : Option (List (String × String))) (table : List LanceRow) : List LanceRow :=
  let data := documents.map (fun document =>
    let document := Document.embed e document
    let cleaned_content := cleanContent document.content
    let doc_id := h cleaned_content
    { id := doc_id, vector := document.embedding,
      payload := lancePayloadJson document cleaned_content })
  table ++ data

/-- `LanceDb.upsert` (`lancedb.py` lines 137-146): redirects the request to
`insert` (called with the source's default `filters=None`). -/
def LanceDb.upsert (h : String → String) (e : Embedder) (documents : List Document)
    (filters : Option (List (String × String))) (table : List LanceRow) : List LanceRow :=
  LanceDb.insert h e documents none table

/-- Number of stored rows carrying a given document's content identifier. -/
def lanceCountId (h : String → String) (d : Document) (table : List LanceRow) : Nat :=
  (table.filter (fun r => r.id == lanceContentId h d)).length

/-! ## Relational backend (`singlestore`) write path -/

/-- The value bound to the `embedding` column of a statement.  `insert`
(`s2vectordb.py` line 148) binds the SQL expression
`JSON_ARRAY_PACK(:embedding)` with the JSON text as parameter; `upsert`
(line 196) binds the raw JSON text itself. -/
inductive SqlValue where
  | jsonArrayPack (embeddingJson : String)
  | rawText (embeddingJson : String)
  deriving DecidableEq

/-- The values clause of a single-document write statement
(`s2vectordb.py` lines 143-151 and 191-199). -/
structure S2Values where
  id : String
  name : String
  meta_data : String
  content : String
  embedding : SqlValue
  usage : String
  content_hash : String
  deriving DecidableEq

/-- The per-document portion of `singlestore.insert` (`s2vectordb.py` lines
132-151): embed, clean, hash, fall back to the content hash when the document has
no id, JSON-encode the mappings and the vector, and bind the embedding as
`JSON_ARRAY_PACK(:embedding)`. -/
def s2InsertValues (h : String → String) (e : Embedder) (document : Document) : S2Values :=
  let document := Document.embed e document
  let cleaned_content := cleanContent document.content
  let content_hash := h cleaned_content
  let _id := pyOr document.id content_hash
  let meta_data_json := jsonDumpsPairs document.meta_data
  let usage_json := jsonDumpsPairs document.usage
  let embedding_json := jsonDumpsEmb document.embedding
  { id := _id, name := document.name, meta_data := meta_data_json,
    content := cleaned_content, embedding := SqlValue.jsonArrayPack embedding_json,
    usage := usage_json, content_hash := content_hash }

/-- The per-document portion of `singlestore.upsert` (`s2vectordb.py` lines
180-199): identical to `s2InsertValues` except that line 196 binds the raw JSON
text `embedding_json` to the embedding column (the `JSON_ARRAY_PACK` expression
built at line 189 is computed but never used). -/
def s2UpsertValues (h : String → String) (e : Embedder) (document : Document) : S2Values :=
  let document := Document.embed e document
  let cleaned_content := cleanContent document.content
  let content_hash := h cleaned_content
  let _id := pyOr document.id content_hash
  let meta_data_json := jsonDumpsPairs document.meta_data
  let usage_json := jsonDumpsPairs document.usage
  let embedding_json := jsonDumpsEmb document.embedding
  { id := _id, name := document.name, meta_data := meta_data_json,
    content := cleaned_content, embedding := SqlValue.rawText embedding_json,
    usage := usage_json, content_hash := content_hash }

/-- The columns updated to the excluded (new) row's values by `upsert`'s
`on_conflict_do_update` clause (`s2vectordb.py` lines 201-211). -/
def s2UpsertConflictSet : List String :=
  ["name", "meta_data", "content", "embedding", "usage", "content_hash"]

/-- A statement executed by the write path: a plain insert, or an insert with an
`ON DUPLICATE KEY UPDATE` clause keyed on the given index elements. -/
inductive S2Stmt where
  | insertStmt (v : S2Values)
  | upsertStmt (v : S2Values) (indexElements : List String) (setColumns : List String)
  deriving DecidableEq

/-- The statement executed per document by `singlestore.insert`. -/
def s2InsertStmt (h : String → String) (e : Embedder) (document : Document) : S2Stmt :=
  S2Stmt.insertStmt (s2InsertValues h e document)

/-- The statement executed per document by `singlestore.upsert`. -/
def s2UpsertStmt (h : String → String) (e : Embedder) (document : Document) : S2Stmt :=
  S2Stmt.upsertStmt (s2UpsertValues h e document) ["id"] s2UpsertConflictSet

/-- A database side effect of the write path: a statement execution or a commit. -/
inductive S2Event where
  | exec (s : S2Stmt)
  | commit
  deriving DecidableEq

/-- Whether an event is a commit. -/
def S2Event.isCommit : S2Event → Bool
  | .commit => true
  | .exec _ => false

/-- Number of commits in a trace. -/
def commitCount (events : List S2Event) : Nat :=
  (events.filter S2Event.isCommit).length

/-- The executed statements of a trace, in order. -/
def execStmts (events : List S2Event) : List S2Stmt :=
  events.filterMap (fun ev => match ev with | .exec s => some s | .commit => none)

/-- The shared loop body of `singlestore.insert` and `singlestore.upsert`
(`s2vectordb.py` lines 130-165 and 178-225; the two loops are textually identical
apart from the statement built per document): execute one statement per document
in input order, increment a counter, commit and reset the counter whenever it
reaches `batch_size`, and issue a final commit if the counter is positive when
the documents are exhausted. -/
def s2WriteLoop (stmtOf : Document → S2Stmt) (batch_size : Nat) :
    List Document → Nat → List S2Event
  | [], counter => if 0 < counter then [S2Event.commit] else []
  | document :: rest, counter =>
      if batch_size ≤ counter + 1 then
        S2Event.exec (stmtOf document) :: S2Event.commit :: s2WriteLoop stmtOf batch_size rest 0
      else
        S2Event.exec (stmtOf document) :: s2WriteLoop stmtOf batch_size rest (counter + 1)

/-- Default batch size of `singlestore.insert` (`s2vectordb.py` line 129). -/
def s2InsertDefaultBatchSize : Nat := 10

/-- Default batch size of `singlestore.upsert` (`s2vectordb.py` line 170). -/
def s2UpsertDefaultBatchSize : Nat := 20

/-- The event trace of `singlestore.insert(documents, batch_size)`. -/
def singlestore.insertTrace (h : String → String) (e : Embedder)
    (documents : List Document) (batch_size : Nat) : List S2Event :=
  s2WriteLoop (s2InsertStmt h e) batch_size documents 0

/-- The event trace of `singlestore.upsert(documents, batch_size)`. -/
def singlestore.upsertTrace (h : String → String) (e : Embedder)
    (documents : List Document) (batch_size : Nat) : List S2Event :=
  s2WriteLoop (s2UpsertStmt h e) batch_size documents 0

/-! ## Claims C1 and C2 -/

/-- C1: for every pair of documents whose content is identical after replacing NUL
characters with the Unicode replacement character, the content identifier computed
for one equals the content identifier computed for the other, on both backends;
the identifier is a function of the cleaned content alone. -/
theorem content_id_deterministic_on_cleaned_content
    (h : String → String) (d1 d2 : Document)
    (hc : cleanContent d1.content = cleanContent d2.content) :
    lanceContentId h d1 = lanceContentId h d2
      ∧ s2ContentHash h d1 = s2ContentHash h d2
      ∧ lanceContentId h d1 = h (cleanContent d1.content)
      ∧ s2ContentHash h d1 = lanceContentId h d1 := by
  refine ⟨?_, ?_, rfl, rfl⟩
  · unfold lanceContentId
    rw [hc]
  · unfold s2ContentHash
    rw [hc]

/-- Concrete instance of `content_id_deterministic_on_cleaned_content`: content
`"a\x00b"` and content `"a�b"` clean to the same text, hence share their
content identifier. -/
theorem content_id_deterministic_witness :
    cleanContent (String.mk [Char.ofNat 97, Phi.nulChar, Char.ofNat 98])
        = cleanContent (String.mk [Char.ofNat 97, Phi.replacementChar, Char.ofNat 98])
      ∧ lanceContentId (fun s => s)
            { id := none, name := "d1", content := String.mk [Char.ofNat 97, Phi.nulChar, Char.ofNat 98],
              meta_data := [], usage := [], embedding := none }
          = lanceContentId (fun s => s)
            { id := none, name := "d2", content := String.mk [Char.ofNat 97, Phi.replacementChar, Char.ofNat 98],
              meta_data := [], usage := [], embedding := none } := by
  refine ⟨by decide, ?_⟩
  exact (content_id_deterministic_on_cleaned_content (fun s => s)
    { id := none, name := "d1", content := String.mk [Char.ofNat 97, Phi.nulChar, Char.ofNat 98],
      meta_data := [], usage := [], embedding := none }
    { id := none, name := "d2", content := String.mk [Char.ofNat 97, Phi.replacementChar, Char.ofNat 98],
      meta_data := [], usage := [], embedding := none }
    (by decide)).1

/-- C2: on the columnar backend `upsert` is extensionally equal to `insert` (it
delegates with no conflict handling), and upserting the same document twice adds
two stored rows carrying that document's content identifier. -/
theorem lance_upsert_delegates_to_insert :
    (∀ (h : String → String) (e : Embedder) (documents : List Document)
        (filters : Option (List (String × String))) (table : List LanceRow),
      LanceDb.upsert h e documents filters table = LanceDb.insert h e documents filters table)
    ∧ (∀ (h : String → String) (e : Embedder) (d : Document) (table : List LanceRow),
      lanceCountId h d (LanceDb.upsert h e [d] none (LanceDb.upsert h e [d] none table))
        = lanceCountId h d table + 2) := by
  constructor
  · intro h e documents filters table
    rfl
  · intro h e d table
    simp [LanceDb.upsert, LanceDb.insert, lanceCountId, lanceContentId,
      Document.embed, List.filter_append]

/-! ## Trace bookkeeping lemmas -/

theorem commitCount_nil : commitCount [] = 0 := rfl

theorem commitCount_exec (s : S2Stmt) (t : List S2Event) :
    commitCount (S2Event.exec s :: t) = commitCount t := rfl

theorem commitCount_commit (t : List S2Event) :
    commitCount (S2Event.commit :: t) = commitCount t + 1 := rfl

theorem execStmts_nil : execStmts [] = [] := rfl

theorem execStmts_exec (s : S2Stmt) (t : List S2Event) :
    execStmts (S2Event.exec s :: t) = s :: execStmts t := rfl

theorem execStmts_commit (t : List S2Event) :
    execStmts (S2Event.commit :: t) = execStmts t := rfl

/-- Commit count of the write loop: starting below the batch size, the loop
issues `ceil((counter + |docs|) / batch_size)` commits. -/
theorem s2WriteLoop_commitCount (f : Document → S2Stmt) (bs : Nat) (hbs : 0 < bs) :
    ∀ (docs : List Document) (counter : Nat), counter < bs →
      commitCount (s2WriteLoop f bs docs counter) = (counter + docs.length + bs - 1) / bs := by
  intro docs
  induction docs with
  | nil =>
      intro counter hc
      by_cases h0 : 0 < counter
      · have h1 : commitCount (s2WriteLoop f bs [] counter) = 1 := by
          simp [s2WriteLoop, h0, commitCount, S2Event.isCommit]
        have hn : counter + List.length ([] : List Document) + bs - 1 = (counter - 1) + bs := by
          simp only [List.length_nil]
          omega
        rw [h1, hn, Nat.add_div_right _ hbs, Nat.div_eq_of_lt (by omega)]
      · have h1 : commitCount (s2WriteLoop f bs [] counter) = 0 := by
          simp [s2WriteLoop, h0, commitCount]
        have hn : counter + List.length ([] : List Document) + bs - 1 = bs - 1 := by
          simp only [List.length_nil]
          omega
        rw [h1, hn, Nat.div_eq_of_lt (by omega)]
  | cons d rest ih =>
      intro counter hc
      by_cases hb : bs ≤ counter + 1
      · simp only [s2WriteLoop, if_pos hb, commitCount_exec, commitCount_commit]
        rw [ih 0 hbs, List.length_cons]
        have h2 : counter + (rest.length + 1) + bs - 1 = 0 + rest.length + bs - 1 + bs := by
          omega
        rw [h2, Nat.add_div_right _ hbs]
      · simp only [s2WriteLoop, if_neg hb, commitCount_exec]
        rw [ih (counter + 1) (by omega), List.length_cons]
        congr 1
        omega

/-- The write loop executes exactly one statement per document, in input order. -/
theorem s2WriteLoop_execStmts (f : Document → S2Stmt) (bs : Nat) :
    ∀ (docs : List Document) (counter : Nat),
      execStmts (s2WriteLoop f bs docs counter) = docs.map f := by
  intro docs
  induction docs with
  | nil =>
      intro counter
      by_cases h0 : 0 < counter <;> simp [s2WriteLoop, h0, execStmts]
  | cons d rest ih =>
      intro counter
      by_cases hb : bs ≤ counter + 1
      · simp only [s2WriteLoop, if_pos hb, execStmts_exec, execStmts_commit, ih, List.map_cons]
      · simp only [s2WriteLoop, if_neg hb, execStmts_exec, ih, List.map_cons]

/-! ## Claims C3, C6 and C7 -/

/-- Digest function used for concrete evaluations (the adapters are digest-generic). -/
def wHash : String → String := fun s => s

/-- An embedding provider that always returns a two-component vector. -/
def wEmbedder : Embedder := { get_embedding := fun _ => some [1, 2], dimensions := 2 }

/-- An embedding provider that always fails (returns an absent result). -/
def noEmbedder : Embedder := { get_embedding := fun _ => none, dimensions := 3 }

/-- A minimal concrete document with content `"a"`. -/
def wDocA : Document :=
  { id := none, name := "n", content := "a", meta_data := [], usage := [], embedding := none }

/-- A minimal concrete document with content `"x"`. -/
def wDocX : Document :=
  { id := none, name := "doc", content := "x", meta_data := [], usage := [], embedding := none }

/-- C3: evaluation of the relational write path at a concrete document.  `insert`
binds the embedding column to the `JSON_ARRAY_PACK(:embedding)` expression while
`upsert` binds the raw JSON text, so the embedding is NOT encoded into the row
identically in both operations; every other column of the built record agrees,
and the conflict clause updates exactly the six non-key columns. -/
theorem s2_upsert_embedding_encoding_differs_from_insert :
    (s2InsertValues wHash wEmbedder wDocA).embedding = SqlValue.jsonArrayPack "[1, 2]"
    ∧ (s2UpsertValues wHash wEmbedder wDocA).embedding = SqlValue.rawText "[1, 2]"
    ∧ (s2UpsertValues wHash wEmbedder wDocA).embedding
        ≠ (s2InsertValues wHash wEmbedder wDocA).embedding
    ∧ { s2UpsertValues wHash wEmbedder wDocA with
          embedding := (s2InsertValues wHash wEmbedder wDocA).embedding }
        = s2InsertValues wHash wEmbedder wDocA
    ∧ s2UpsertConflictSet = ["name", "meta_data", "content", "embedding", "usage", "content_hash"] := by
  refine ⟨rfl, rfl, by decide, rfl, rfl⟩

/-- C6: evaluation of both write paths at a document whose embedding the provider
fails to produce.  The columnar insert persists a row whose vector is absent, and
the relational insert executes and commits a statement whose embedding parameter
is the JSON text `null`: no backend aborts the document's write. -/
theorem insert_persists_record_with_absent_embedding :
    (LanceDb.insert wHash noEmbedder [wDocX] none []).map (fun r => r.vector) = [none]
    ∧ (LanceDb.insert wHash noEmbedder [wDocX] none []).length = 1
    ∧ (s2InsertValues wHash noEmbedder wDocX).embedding = SqlValue.jsonArrayPack "null"
    ∧ execStmts (singlestore.insertTrace wHash noEmbedder [wDocX] 10)
        = [s2InsertStmt wHash noEmbedder wDocX]
    ∧ commitCount (singlestore.insertTrace wHash noEmbedder [wDocX] 10) = 1 := by
  refine ⟨rfl, rfl, rfl, rfl, rfl⟩

/-- C7: on the relational backend, insert and upsert over `M` documents with batch
size `N > 0` execute one statement per document in input order and issue
`ceil(M / N)` commits (periodic commits every `N` documents plus a final commit of
any remainder); insert's default batch size is 10 and upsert's is 20. -/
theorem s2_write_batching (h : String → String) (e : Embedder)
    (documents : List Document) (batch_size : Nat) (hbs : 0 < batch_size) :
    commitCount (singlestore.insertTrace h e documents batch_size)
        = (documents.length + batch_size - 1) / batch_size
    ∧ commitCount (singlestore.upsertTrace h e documents batch_size)
        = (documents.length + batch_size - 1) / batch_size
    ∧ execStmts (singlestore.insertTrace h e documents batch_size)
        = documents.map (s2InsertStmt h e)
    ∧ execStmts (singlestore.upsertTrace h e documents batch_size)
        = documents.map (s2UpsertStmt h e)
    ∧ s2InsertDefaultBatchSize = 10 ∧ s2UpsertDefaultBatchSize = 20 := by
  refine ⟨?_, ?_, ?_, ?_, rfl, rfl⟩
  · have h1 := s2WriteLoop_commitCount (s2InsertStmt h e) batch_size hbs documents 0 hbs
    simpa [singlestore.insertTrace] using h1
  · have h1 := s2WriteLoop_commitCount (s2UpsertStmt h e) batch_size hbs documents 0 hbs
    simpa [singlestore.upsertTrace] using h1
  · exact s2WriteLoop_execStmts (s2InsertStmt h e) batch_size documents 0
  · exact s2WriteLoop_execStmts (s2UpsertStmt h e) batch_size documents 0

/-- Three distinct concrete documents, used to exercise the batching theorem. -/
def wDocs3 : List Document :=
  [{ id := none, name := "a", content := "a", meta_data := [], usage := [], embedding := none },
   { id := none, name := "b", content := "b", meta_data := [], usage := [], embedding := none },
   { id := none, name := "c", content := "c", meta_data := [], usage := [], embedding := none }]

/-- Concrete instance of `s2_write_batching`: three documents with batch size 2
produce `ceil(3 / 2) = 2` commits. -/
theorem s2_write_batching_witness :
    0 < 2
    ∧ commitCount (singlestore.insertTrace wHash wEmbedder wDocs3 2)
        = (wDocs3.length + 2 - 1) / 2 :=
  ⟨by decide, (s2_write_batching wHash wEmbedder wDocs3 2 (by decide)).1⟩

/-! ## Schema/Table manager -/

/-- The LanceDb client's catalog: the named tables of the connected database. -/
structure LanceCatalog where
  tables : List (String × List LanceRow)
  deriving DecidableEq

/-- `self.client.table_names()`. -/
def lanceTableNames (c : LanceCatalog) : List String :=
  c.tables.map (fun p => p.1)

/-- `LanceDb.exists` (`lancedb.py` lines 248-252): the client handle is always
truthy, so this is membership of the table name in the catalog. -/
def LanceDb.existsTable (c : LanceCatalog) (table_name : String) : Bool :=
  decide (table_name ∈ lanceTableNames c)

/-- `self.client.table(name)`: the rows of the named table. -/
def lanceClientTableRows (c : LanceCatalog) (table_name : String) : List LanceRow :=
  ((c.tables.find? (fun p => p.1 == table_name)).map (fun p => p.2)).getD []

/-- `LanceDb.get_count` (`lancedb.py` lines 254-257): row count when the table
exists, else 0. -/
def LanceDb.get_count (c : LanceCatalog) (table_name : String) : Nat :=
  if LanceDb.existsTable c table_name then (lanceClientTableRows c table_name).length else 0

/-- `LanceDb.delete` (`lancedb.py` lines 243-246): drop the table if it exists. -/
def LanceDb.delete (c : LanceCatalog) (table_name : String) : LanceCatalog :=
  if LanceDb.existsTable c table_name then
    { tables := c.tables.filter (fun p => !(p.1 == table_name)) }
  else c

/-- An error surfaced by the relational engine while executing a statement. -/
inductive DbError where
  | missingTable
  deriving DecidableEq

/-- The backing state of the relational adapter: whether the table exists in the
connected database, and its rows. -/
structure S2Db where
  tableExists : Bool
  rows : List S2Values
  deriving DecidableEq

/-- Engine semantics of executing `SELECT COUNT(name) FROM table`
(`s2vectordb.py` lines 318-319): the scalar count when the table exists, a
statement error from the backend when it does not — the source issues the
statement unconditionally. -/
def execCountStmt (db : S2Db) : Except DbError (Option Nat) :=
  if db.tableExists then Except.ok (some db.rows.length) else Except.error DbError.missingTable

/-- `singlestore.get_count` (`s2vectordb.py` lines 315-322): execute the count
statement, return `int(result)` when the scalar is present, else 0.  There is no
table-existence check, so a missing table surfaces the engine's error. -/
def s2get_count (db : S2Db) : Except DbError Nat :=
  match execCountStmt db with
  | Except.error e => Except.error e
  | Except.ok (some result) => Except.ok result
  | Except.ok none => Except.ok 0

/-- `singlestore.delete` (`s2vectordb.py` lines 307-310): drop the table if it
exists. -/
def s2delete (db : S2Db) : S2Db :=
  if db.tableExists then { tableExists := false, rows := [] } else db

/-! ## Claims C4 and C5 -/

/-- After `LanceDb.delete`, the table name is no longer in the catalog. -/
theorem lance_existsTable_after_delete (c : LanceCatalog) (table_name : String) :
    LanceDb.existsTable (LanceDb.delete c table_name) table_name = false := by
  unfold LanceDb.delete
  by_cases hex : LanceDb.existsTable c table_name
  · simp only [hex, if_true]
    simp [LanceDb.existsTable, lanceTableNames, List.mem_map, List.mem_filter]
  · simp [hex]

/-- C4 counterexample: on the relational backend, `get_count` against a state in
which the table does not exist surfaces the engine's error instead of returning
0 — the claim fails on that backend. -/
theorem s2_get_count_missing_table_errors :
    s2get_count { tableExists := false, rows := [] } = Except.error DbError.missingTable := rfl

/-- C4 amended: on the columnar backend, `get_count` returns 0 without error
whenever the table is absent, in particular after `delete`; on the relational
backend, `get_count` issues the count statement unconditionally, so a missing
table (in particular after `delete`) surfaces the engine's statement error. -/
theorem get_count_absent_table_amended :
    (∀ (c : LanceCatalog) (table_name : String),
      LanceDb.existsTable c table_name = false → LanceDb.get_count c table_name = 0)
    ∧ (∀ (c : LanceCatalog) (table_name : String),
      LanceDb.get_count (LanceDb.delete c table_name) table_name = 0)
    ∧ (∀ db : S2Db, db.tableExists = false →
      s2get_count db = Except.error DbError.missingTable)
    ∧ (∀ db : S2Db, s2get_count (s2delete db) = Except.error DbError.missingTable) := by
  refine ⟨?_, ?_, ?_, ?_⟩
  · intro c table_name hex
    simp [LanceDb.get_count, hex]
  · intro c table_name
    simp [LanceDb.get_count, lance_existsTable_after_delete]
  · intro db hex
    simp [s2get_count, execCountStmt, hex]
  · intro db
    have hex : (s2delete db).tableExists = false := by
      unfold s2delete
      by_cases h : db.tableExists <;> simp [h]
    simp [s2get_count, execCountStmt, hex]

/-- Concrete instance of `get_count_absent_table_amended` at an empty catalog and
an absent relational table. -/
theorem get_count_absent_table_amended_witness :
    (LanceDb.existsTable { tables := [] } "phi" = false
      ∧ LanceDb.get_count { tables := [] } "phi" = 0)
    ∧ ((({ tableExists := false, rows := [] } : S2Db)).tableExists = false
      ∧ s2get_count { tableExists := false, rows := [] } = Except.error DbError.missingTable) :=
  ⟨⟨by decide, get_count_absent_table_amended.1 { tables := [] } "phi" (by decide)⟩,
   ⟨rfl, get_count_absent_table_amended.2.2.1 { tableExists := false, rows := [] } rfl⟩⟩

/-- The payload fields read back by `_build_search_results`
(`lancedb.py` lines 226-235). -/
structure LancePayload where
  name : String
  meta_data : List (String × String)
  content : String
  usage : List (String × String)
  deriving DecidableEq

/-- The body of one iteration of `_build_search_results`' loop: `json.loads` the
row's payload (the standard-library parser is external and modelled as the
`loads` argument; an absent result models a raised decode exception) and build
the Document from its fields plus the row's vector. -/
def decodeLanceRow (loads : String → Option LancePayload) (item : LanceRow) : Option Document :=
  (loads item.payload).map (fun payload =>
    { id := none, name := payload.name, meta_data := payload.meta_data,
      content := payload.content, usage := payload.usage, embedding := item.vector })

/-- The loop of `_build_search_results` (`lancedb.py` lines 222-241):
`search_results` is initialized before the `try`, rows are appended inside it,
and the first decode exception aborts the loop; the accumulated list is returned
after the `except` logs the error. -/
def buildSearchResultsGo (loads : String → Option LancePayload)
    (search_results : List Document) : List LanceRow → List Document
  | [] => search_results
  | item :: rest =>
      match decodeLanceRow loads item with
      | some d => buildSearchResultsGo loads (search_results ++ [d]) rest
      | none => search_results

/-- `LanceDb._build_search_results`. -/
def LanceDb.buildSearchResults (loads : String → Option LancePayload)
    (results : List LanceRow) : List Document :=
  buildSearchResultsGo loads [] results

/-- The documents decoded before the first failing row: the longest
successfully-decoded prefix of the batch.  (Stated from the observed behavior,
for comparison with `LanceDb.buildSearchResults`.) -/
def longestDecodedPrefix (loads : String → Option LancePayload) :
    List LanceRow → List Document
  | [] => []
  | item :: rest =>
      match decodeLanceRow loads item with
      | some d => d :: longestDecodedPrefix loads rest
      | none => []

/-- Unfolding of the result-building loop against an accumulator. -/
theorem buildSearchResultsGo_eq (loads : String → Option LancePayload) :
    ∀ (rows : List LanceRow) (acc : List Document),
      buildSearchResultsGo loads acc rows = acc ++ longestDecodedPrefix loads rows := by
  intro rows
  induction rows with
  | nil =>
      intro acc
      simp [buildSearchResultsGo, longestDecodedPrefix]
  | cons item rest ih =>
      intro acc
      cases hd : decodeLanceRow loads item with
      | some d => simp [buildSearchResultsGo, longestDecodedPrefix, hd, ih]
      | none => simp [buildSearchResultsGo, longestDecodedPrefix, hd]

/-- The payload decoder used for the concrete decode-failure batch: the payload
text `"good"` decodes, anything else raises. -/
def cexLoads : String → Option LancePayload := fun s =>
  if s = "good" then some { name := "n", meta_data := [], content := "c", usage := [] }
  else none

/-- A row whose payload decodes successfully. -/
def cexRowOk : LanceRow := { id := "1", vector := none, payload := "good" }

/-- A row whose payload fails to decode. -/
def cexRowBad : LanceRow := { id := "2", vector := none, payload := "bad" }

/-- C5 counterexample: a batch whose second row fails to decode yields the list
containing the first row's document — a partial list, not the empty list the
claim requires. -/
theorem build_search_results_partial_on_decode_failure :
    decodeLanceRow cexLoads cexRowBad = none
    ∧ LanceDb.buildSearchResults cexLoads [cexRowOk, cexRowBad]
        = [{ id := none, name := "n", meta_data := [], content := "c", usage := [],
             embedding := none }]
    ∧ LanceDb.buildSearchResults cexLoads [cexRowOk, cexRowBad] ≠ [] := by
  refine ⟨rfl, rfl, by decide⟩

/-- C5 amended: when decoding some row of a query-result batch fails, the
columnar result-decoding step returns exactly the documents decoded before the
failing row (the longest successfully-decoded prefix, empty only when the first
row fails), logging the failure; it never raises. -/
theorem build_search_results_longest_decoded_prefix :
    ∀ (loads : String → Option LancePayload) (rows : List LanceRow),
      LanceDb.buildSearchResults loads rows = longestDecodedPrefix loads rows := by
  intro loads rows
  simpa using buildSearchResultsGo_eq loads rows []

/-! ## Claim C9: lexical/hybrid index lifecycle -/

/-- One search call on a `LanceDb` instance, as dispatched by `search`
(`lancedb.py` lines 148-157): the three supported query types plus the
invalid-configuration branch (which logs and returns an empty result). -/
inductive LanceQuery where
  | vector (q : String)
  | hybrid (q : String)
  | fts (q : String)
  | invalid
  deriving DecidableEq

/-- Effect of one search call on the `fts_index_exists` flag, paired with the
number of `create_fts_index` calls it performs.  `vector_search` (lines 159-177)
never touches the index; `hybrid_search` (lines 179-202) returns early when the
query embedding is absent and otherwise builds the index iff the flag is unset;
`keyword_search` (lines 204-220) builds the index iff the flag is unset. -/
def lanceQueryIndexStep (e : Embedder) (fts_index_exists : Bool) :
    LanceQuery → Bool × Nat
  | .vector _ => (fts_index_exists, 0)
  | .hybrid q =>
      match e.get_embedding q with
      | none => (fts_index_exists, 0)
      | some _ => if fts_index_exists then (fts_index_exists, 0) else (true, 1)
  | .fts _ => if fts_index_exists then (fts_index_exists, 0) else (true, 1)
  | .invalid => (fts_index_exists, 0)

/-- Run a sequence of search calls on one adapter instance, returning the final
flag and the total number of index builds. -/
def lanceRunQueries (e : Embedder) (fts_index_exists : Bool) :
    List LanceQuery → Bool × Nat
  | [] => (fts_index_exists, 0)
  | q :: rest =>
      let step := lanceQueryIndexStep e fts_index_exists q
      let run := lanceRunQueries e step.1 rest
      (run.1, step.2 + run.2)

/-- Whether a call reaches the index-building branch: a lexical query, or a
hybrid query whose embedding the provider produces. -/
def queryBuildsIndex (e : Embedder) : LanceQuery → Bool
  | .hybrid q => (e.get_embedding q).isSome
  | .fts _ => true
  | .vector _ => false
  | .invalid => false

/-- Once the flag is set, no call ever builds the index again. -/
theorem lanceRunQueries_built (e : Embedder) :
    ∀ (qs : List LanceQuery), lanceRunQueries e true qs = (true, 0) := by
  intro qs
  induction qs with
  | nil => rfl
  | cons q rest ih =>
      cases q with
      | vector q => simp [lanceRunQueries, lanceQueryIndexStep, ih]
      | hybrid q =>
          cases hq : e.get_embedding q <;>
            simp [lanceRunQueries, lanceQueryIndexStep, hq, ih]
      | fts q => simp [lanceRunQueries, lanceQueryIndexStep, ih]
      | invalid => simp [lanceRunQueries, lanceQueryIndexStep, ih]

/-- C9: over every sequence of search calls on one adapter instance starting in
the `NO_INDEX` state, the full-text index is built at most once — exactly once
when some call reaches the index-building branch (the first lexical query or
hybrid query with an available embedding performs the `NO_INDEX -> INDEX_BUILT`
transition) — and from the `INDEX_BUILT` state no call ever builds it again. -/
theorem fts_index_built_at_most_once (e : Embedder) (qs : List LanceQuery) :
    (lanceRunQueries e false qs).2 ≤ 1
    ∧ (lanceRunQueries e true qs).2 = 0
    ∧ (lanceRunQueries e false qs).2 = (if qs.any (queryBuildsIndex e) then 1 else 0)
    ∧ (lanceRunQueries e false qs).1 = qs.any (queryBuildsIndex e) := by
  have hmain : (lanceRunQueries e false qs).2 = (if qs.any (queryBuildsIndex e) then 1 else 0)
      ∧ (lanceRunQueries e false qs).1 = qs.any (queryBuildsIndex e) := by
    induction qs with
    | nil => exact ⟨rfl, rfl⟩
    | cons q rest ih =>
        cases q with
        | vector q =>
            simpa [lanceRunQueries, lanceQueryIndexStep, queryBuildsIndex] using ih
        | hybrid q =>
            cases hq : e.get_embedding q with
            | none =>
                simpa [lanceRunQueries, lanceQueryIndexStep, queryBuildsIndex, hq] using ih
            | some v =>
                simp [lanceRunQueries, lanceQueryIndexStep, queryBuildsIndex, hq,
                  lanceRunQueries_built e rest]
        | fts q =>
            simp [lanceRunQueries, lanceQueryIndexStep, queryBuildsIndex,
              lanceRunQueries_built e rest]
        | invalid =>
            simpa [lanceRunQueries, lanceQueryIndexStep, queryBuildsIndex] using ih
  refine ⟨?_, (lanceRunQueries_built e qs).symm ▸ rfl, hmain.1, hmain.2⟩
  · rw [hmain.1]
    by_cases h : qs.any (queryBuildsIndex e) <;> simp [h]

/-! ## Constructors (claim C8) -/

/-- Python-level exceptions raised by the adapters' code. -/
inductive PyError where
  | valueError (msg : String)
  | attributeError (attr : String)
  | typeError (msg : String)
  deriving DecidableEq

/-- Python attribute lookup on an object whose assigned attribute names are
`assigned`: reading an attribute that was never assigned raises
`AttributeError`. -/
def pyGetattr (assigned : List String) (attr : String) : Except PyError Unit :=
  if attr ∈ assigned then Except.ok () else Except.error (PyError.attributeError attr)

/-- A `lancedb.db.LanceTable` handle: its name and its schema's column names. -/
structure LanceTable where
  name : String
  schemaNames : List String
  deriving DecidableEq

/-- A value passed as the `connection` argument: a real `LanceTable` handle, or
an object of some other type (failing the `isinstance` check at line 45). -/
inductive LanceConnArg where
  | lanceTable (t : LanceTable)
  | otherObject
  deriving DecidableEq

/-- The adapter state produced by a successful `LanceDb.__init__`. -/
structure LanceDbState where
  table_name : String
  vectorCol : String
  idCol : String
  fts_index_exists : Bool
  deriving DecidableEq

/-- Attributes assigned by `LanceDb.__init__` before the `connection` branch
(`lancedb.py` lines 33-42). -/
def lanceAttrsBeforeConnBranch : List String :=
  ["embedder", "dimensions", "distance", "uri", "client", "nprobes"]

/-- `LanceDb._init_table` (`lancedb.py` lines 70-89): the vector column width is
`len(self.embedder.get_embedding("test"))`, which raises `TypeError` when the
provider returns an absent result; otherwise the table is created in overwrite
mode with columns `(vector, id, payload)`. -/
def lanceInitTable (e : Embedder) (table_name : String) : Except PyError LanceDbState :=
  match e.get_embedding "test" with
  | none => Except.error (PyError.typeError "object of type NoneType has no len()")
  | some _ =>
      Except.ok { table_name := table_name, vectorCol := "vector", idCol := "id",
                  fts_index_exists := false }

/-- `LanceDb.__init__` (`lancedb.py` lines 21-63).  When a connection argument is
given: a wrongly-typed object raises `ValueError` (lines 45-49); a correctly-typed
`LanceTable` assigns `connection`, `table_name` and `_vector_col` (lines 50-52)
and then line 53 reads `self.tbl`, an attribute no path ever assigns.  With no
connection argument, the table is created via `_init_table` (lines 56-57) and
`fts_index_exists` is initialized to false (line 63). -/
def LanceDb.init (e : Embedder) (connection : Option LanceConnArg) (table_name : String) :
    Except PyError LanceDbState :=
  match connection with
  | some arg =>
      match arg with
      | LanceConnArg.otherObject =>
          Except.error (PyError.valueError "connection should be an instance of lancedb.db.LanceTable")
      | LanceConnArg.lanceTable t =>
          let assigned := lanceAttrsBeforeConnBranch ++ ["connection", "table_name", "_vector_col"]
          match pyGetattr assigned "tbl" with
          | Except.error err => Except.error err
          | Except.ok _ =>
              Except.ok { table_name := t.name, vectorCol := (t.schemaNames.getD 0 ""),
                          idCol := (t.schemaNames.getD 1 ""), fts_index_exists := false }
  | none =>
      match lanceInitTable e table_name with
      | Except.error err => Except.error err
      | Except.ok st => Except.ok st

/-- The distance metric enum (`phi.vectordb.distance.Distance`). -/
inductive Distance where
  | cosine
  | l2
  | max_inner_product
  deriving DecidableEq

/-- A SQLAlchemy engine handle; `create_engine(db_url)` yields one from a URL. -/
structure Engine where
  url : Option String
  deriving DecidableEq

/-- The object state produced by a successful `singlestore.__init__`. -/
structure S2Obj where
  attrs : List String
  collection : String
  schemaName : Option String
  distance : Distance
  deriving DecidableEq

/-- The attributes assigned by `singlestore.__init__` (`s2vectordb.py` lines
42-51): `collection, schema, db_url, db_engine, metadata, embedder, dimensions,
distance, Session, table` — and nothing else; in particular no constructor path
assigns `index`. -/
def s2AssignedAttrs : List String :=
  ["collection", "schema", "db_url", "db_engine", "metadata", "embedder",
   "dimensions", "distance", "Session", "table"]

/-- `singlestore.__init__` (`s2vectordb.py` lines 26-51): take the passed engine,
else build one from `db_url`; raise `ValueError` when neither is supplied;
otherwise assign the ten attributes of `s2AssignedAttrs`. -/
def singlestore.init (collection : String) (schemaName : Option String)
    (db_url : Option String) (db_engine : Option Engine) (e : Embedder)
    (dist : Distance) : Except PyError S2Obj :=
  let _engine : Option Engine :=
    match db_engine, db_url with
    | some g, _ => some g
    | none, some url => some { url := some url }
    | none, none => none
  match _engine with
  | none => Except.error (PyError.valueError "Must provide either db_url or db_engine")
  | some _ =>
      Except.ok { attrs := s2AssignedAttrs, collection := collection,
                  schemaName := schemaName, distance := dist }

/-- A correctly-typed `LanceTable` handle, as returned by a previous connection. -/
def wLanceTable : LanceTable := { name := "phi", schemaNames := ["vector", "id", "payload"] }

/-- C8: evaluation of the constructors.  Passing a correctly-typed existing
`LanceTable` connection handle does NOT succeed: line 53 reads the never-assigned
attribute `tbl` and construction raises `AttributeError`.  The claimed failure
cases do fail as stated: a wrongly-typed handle raises `ValueError`, and the
relational constructor with neither URL nor engine raises `ValueError`. -/
theorem lance_init_valid_connection_attribute_error :
    LanceDb.init wEmbedder (some (LanceConnArg.lanceTable wLanceTable)) "phi"
        = Except.error (PyError.attributeError "tbl")
    ∧ LanceDb.init wEmbedder (some LanceConnArg.otherObject) "phi"
        = Except.error (PyError.valueError "connection should be an instance of lancedb.db.LanceTable")
    ∧ singlestore.init "c" none none none wEmbedder Distance.cosine
        = Except.error (PyError.valueError "Must provide either db_url or db_engine") :=
  ⟨rfl, rfl, rfl⟩

/-! ## Claim C10: relational search reads an unassigned attribute -/

/-- The ordering expression of the relational search statement
(`s2vectordb.py` lines 248-257): `max_inner_product` for the l2 and
max-inner-product metrics, a descending `DOT_PRODUCT` against
`JSON_ARRAY_PACK(:embedding)` for cosine. -/
inductive S2OrderBy where
  | maxInnerProduct (v : List Int)
  | dotProductDesc (embeddingJson : String)
  deriving DecidableEq

/-- The select statement built by `singlestore.search` before execution. -/
structure S2SelectStmt where
  columns : List String
  whereEq : List (String × String)
  order : S2OrderBy
  limitN : Nat
  deriving DecidableEq

/-- The columns of the relational table (`get_table`, `s2vectordb.py` lines
53-67), used by the filter check `hasattr(self.table.c, key)`. -/
def s2TableColumns : List String :=
  ["id", "name", "meta_data", "content", "embedding", "usage",
   "created_at", "updated_at", "content_hash"]

/-- Outcome of `singlestore.search` up to the point where the built statement
would be executed (`s2vectordb.py` lines 227-284). -/
inductive S2SearchStep where
  | emptyNoEmbedding
  | failed (err : PyError)
  | executes (stmt : S2SelectStmt)
  deriving DecidableEq

/-- `singlestore.search` up to statement execution (`s2vectordb.py` lines
227-284): an absent query embedding returns an empty result (line 231); otherwise
the select statement is built purely (columns, equality filters over existing
columns, metric-driven ordering, limit), a session is opened, and line 274
evaluates `self.index is not None` — an attribute read that raises before
`sess.execute(stmt)` is reached when `index` was never assigned. -/
def singlestore.searchStep (e : Embedder) (obj : S2Obj) (query : String)
    (limit : Nat) (filters : Option (List (String × String))) : S2SearchStep :=
  match e.get_embedding query with
  | none => S2SearchStep.emptyNoEmbedding
  | some query_embedding =>
      let columns := ["name", "meta_data", "content", "embedding", "usage"]
      let whereEq :=
        match filters with
        | none => []
        | some fs => fs.filter (fun kv => s2TableColumns.contains kv.1)
      let order :=
        match obj.distance with
        | Distance.l2 => S2OrderBy.maxInnerProduct query_embedding
        | Distance.cosine => S2OrderBy.dotProductDesc (jsonDumpsList query_embedding)
        | Distance.max_inner_product => S2OrderBy.maxInnerProduct query_embedding
      let stmt : S2SelectStmt :=
        { columns := columns, whereEq := whereEq, order := order, limitN := limit }
      match pyGetattr obj.attrs "index" with
      | Except.error err => S2SearchStep.failed err
      | Except.ok _ => S2SearchStep.executes stmt

/-- C10: for every adapter object built by the relational constructor and every
query whose embedding is produced, `search` reads the never-assigned attribute
`index` and fails with `AttributeError` before executing the query. -/
theorem s2_search_fails_on_unassigned_index
    (collection : String) (schemaName : Option String) (db_url : Option String)
    (db_engine : Option Engine) (e0 : Embedder) (dist : Distance) (obj : S2Obj)
    (hinit : singlestore.init collection schemaName db_url db_engine e0 dist = Except.ok obj)
    (e : Embedder) (query : String) (v : List Int)
    (hq : e.get_embedding query = some v)
    (limit : Nat) (filters : Option (List (String × String))) :
    singlestore.searchStep e obj query limit filters
        = S2SearchStep.failed (PyError.attributeError "index")
    ∧ "index" ∉ obj.attrs := by
  have hattrs : obj.attrs = s2AssignedAttrs := by
    cases db_engine with
    | some g =>
        have hred : singlestore.init collection schemaName db_url (some g) e0 dist
            = Except.ok { attrs := s2AssignedAttrs, collection := collection,
                          schemaName := schemaName, distance := dist } := rfl
        rw [hred] at hinit
        injection hinit with h
        rw [← h]
    | none =>
        cases db_url with
        | some url =>
            have hred : singlestore.init collection schemaName (some url) none e0 dist
                = Except.ok { attrs := s2AssignedAttrs, collection := collection,
                              schemaName := schemaName, distance := dist } := rfl
            rw [hred] at hinit
            injection hinit with h
            rw [← h]
        | none => simp [singlestore.init] at hinit
  constructor
  · simp only [singlestore.searchStep, hq, hattrs]
    rfl
  · rw [hattrs]
    decide

/-- Concrete instance of `s2_search_fails_on_unassigned_index`: a constructor
call with a URL succeeds, the embedder produces a vector for the query, and the
search step fails with the `index` attribute error. -/
def wObj : S2Obj :=
  { attrs := s2AssignedAttrs, collection := "c", schemaName := none,
    distance := Distance.cosine }

theorem s2_search_fails_on_unassigned_index_witness :
    singlestore.init "c" none (some "url") none wEmbedder Distance.cosine = Except.ok wObj
    ∧ wEmbedder.get_embedding "q" = some [1, 2]
    ∧ (singlestore.searchStep wEmbedder wObj "q" 5 none
        = S2SearchStep.failed (PyError.attributeError "index")
      ∧ "index" ∉ wObj.attrs) :=
  ⟨rfl, rfl,
   s2_search_fails_on_unassigned_index "c" none (some "url") none wEmbedder
     Distance.cosine wObj rfl wEmbedder "q" [1, 2] rfl 5 none⟩

end Phi
